import Mathlib

/-!
Verification of the KeystoneDB Python gRPC client binding
(bindings/python/client/keystonedb): the request builders in
builders.py and the client dispatch/aggregation in client.py.

Embedding conventions:
* Python bytes values are modelled as lists of naturals (`Bytes`).
* Python dicts keyed by strings are modelled as association lists with
  an insert-or-overwrite assignment (`dinsert`), matching dict update
  semantics of `d[k] = v`.
* A Python method that may raise is embedded with an `Except Exn`
  result, where `Exn` records the exception class name and message; a
  body containing no raise statement produces `.ok` on every path.
* The generated protobuf module keystone_pb2 is not part of the shown
  sources; its messages are modelled as plain records whose
  constructors accept any field values (protobuf3 message construction
  performs no content validation; an empty bytes field is the proto3
  default).
-/

namespace KsDB

/-- A raised Python exception: class name and message. -/
structure Exn where
  name : String
  message : String
deriving DecidableEq

/-- Python bytes modelled as a list of byte values. -/
abbrev Bytes := List Nat

/-- Lexicographic strict order on byte strings, used only to state
that a lower bound exceeds an upper bound. -/
def bytesLt : Bytes → Bytes → Bool
  | [], [] => false
  | [], _ :: _ => true
  | _ :: _, [] => false
  | a :: as, b :: bs => if a < b then true else if b < a then false else bytesLt as bs

/-- Python dict assignment d[k] = v on a string-keyed dict modelled as
an association list: overwrite in place when the key exists, append
otherwise. -/
def dinsert (k : String) (v : α) : List (String × α) → List (String × α)
  | [] => [(k, v)]
  | (k1, v1) :: rest => if k1 = k then (k, v) :: rest else (k1, v1) :: dinsert k v rest

/-- Python dict lookup d.get(k). -/
def dlookup (k : String) : List (String × α) → Option α
  | [] => none
  | (k1, v1) :: rest => if k1 = k then some v1 else dlookup k rest

/-- Boolean success test on an embedded Python call result. -/
def isOkE : Except Exn α → Bool
  | .ok _ => true
  | .error _ => false

/-- An attribute value as carried by the builders and by pb.Value: the
builder stores a one-key dict selecting the variant (string_value,
number_value, bool_value, binary_value) and pb.Value(**val) transfers
that tag and payload unchanged; a number is always decimal text. -/
inductive Value where
  | string_value (s : String)
  | number_value (s : String)
  | bool_value (b : Bool)
  | binary_value (bs : Bytes)
deriving DecidableEq

/-- pb.Item: a mapping from attribute name to Value. -/
structure Item where
  attributes : List (String × Value)
deriving DecidableEq

/-- pb.PutRequest as built by PutRequestBuilder.build: proto3 message
with partition_key, item, and optional sort_key, condition_expression
and expression_values (left at their defaults when not assigned). -/
structure PutRequest where
  partition_key : Bytes
  item : Item
  sort_key : Option Bytes
  condition_expression : Option String
  expression_values : List (String × Value)
deriving DecidableEq

/-- pb.GetRequest as built by GetRequestBuilder.build. -/
structure GetRequest where
  partition_key : Bytes
  sort_key : Option Bytes
deriving DecidableEq

/-- The sort-key condition dict stored by the three QueryRequestBuilder
sort-key mutators: exactly one of equal_to, begins_with, between. -/
inductive SortKeyCond where
  | equal_to (v : Bytes)
  | begins_with (v : Bytes)
  | between (lower upper : Bytes)
deriving DecidableEq

/-- The dict returned by QueryRequestBuilder.build (the QueryRequest
shape: one entry per builder field). -/
structure QueryRequest where
  partition_key : Bytes
  sort_key_condition : Option SortKeyCond
  filter_expression : Option String
  expression_values : List (String × Value)
  index_name : Option String
  limit : Option Int
  exclusive_start_key : Option (List (String × Value))
  scan_forward : Option Bool
deriving DecidableEq

/-- The dict returned by ScanRequestBuilder.build (the ScanRequest
shape: one entry per builder field). -/
structure ScanRequest where
  filter_expression : Option String
  expression_values : List (String × Value)
  limit : Option Int
  exclusive_start_key : Option (List (String × Value))
  index_name : Option String
  segment : Option Int
  total_segments : Option Int
deriving DecidableEq

/-- PutRequestBuilder state: the fields assigned by __init__ and
mutated by the chained with_* calls. -/
structure PutRequestBuilder where
  partition_key : Bytes
  sort_key : Option Bytes
  attributes : List (String × Value)
  condition : Option String
  expression_values : List (String × Value)
deriving DecidableEq

/-- PutRequestBuilder.__init__(partition_key). -/
def PutRequestBuilder.init (pk : Bytes) : PutRequestBuilder :=
  { partition_key := pk, sort_key := none, attributes := [], condition := none,
    expression_values := [] }

/-- PutRequestBuilder.with_sort_key. -/
def PutRequestBuilder.with_sort_key (b : PutRequestBuilder) (sk : Bytes) : PutRequestBuilder :=
  { b with sort_key := some sk }

/-- PutRequestBuilder.with_string: attributes[name] = string_value dict. -/
def PutRequestBuilder.with_string (b : PutRequestBuilder) (n s : String) : PutRequestBuilder :=
  { b with attributes := dinsert n (.string_value s) b.attributes }

/-- PutRequestBuilder.with_number: the number is taken as a string for
precision and stored unchanged. -/
def PutRequestBuilder.with_number (b : PutRequestBuilder) (n s : String) : PutRequestBuilder :=
  { b with attributes := dinsert n (.number_value s) b.attributes }

/-- PutRequestBuilder.with_bool. -/
def PutRequestBuilder.with_bool (b : PutRequestBuilder) (n : String) (v : Bool) : PutRequestBuilder :=
  { b with attributes := dinsert n (.bool_value v) b.attributes }

/-- PutRequestBuilder.with_binary. -/
def PutRequestBuilder.with_binary (b : PutRequestBuilder) (n : String) (v : Bytes) : PutRequestBuilder :=
  { b with attributes := dinsert n (.binary_value v) b.attributes }

/-- PutRequestBuilder.with_condition. -/
def PutRequestBuilder.with_condition (b : PutRequestBuilder) (c : String) : PutRequestBuilder :=
  { b with condition := some c }

/-- State-passing translation of PutRequestBuilder.build: the builder
is threaded through the body statement by statement; the body builds a
local item and request from reads of self, assigns request fields
conditionally, and never assigns to self, so the final builder state is
the initial one and no raise statement occurs on any path. -/
def PutRequestBuilder.buildSt (b : PutRequestBuilder) :
    PutRequestBuilder × Except Exn PutRequest :=
  let item : Item := { attributes := b.attributes }
  let request : PutRequest :=
    { partition_key := b.partition_key, item := item, sort_key := none,
      condition_expression := none, expression_values := [] }
  let request :=
    match b.sort_key with
    | some sk => { request with sort_key := some sk }
    | none => request
  let request :=
    match b.condition with
    | some c => { request with condition_expression := some c }
    | none => request
  let request :=
    if b.expression_values = [] then request
    else { request with expression_values := b.expression_values }
  (b, .ok request)

/-- PutRequestBuilder.build: value returned to the caller. -/
def PutRequestBuilder.build (b : PutRequestBuilder) : Except Exn PutRequest :=
  (b.buildSt).2

/-- GetRequestBuilder state. -/
structure GetRequestBuilder where
  partition_key : Bytes
  sort_key : Option Bytes
deriving DecidableEq

/-- GetRequestBuilder.__init__(partition_key). -/
def GetRequestBuilder.init (pk : Bytes) : GetRequestBuilder :=
  { partition_key := pk, sort_key := none }

/-- GetRequestBuilder.with_sort_key. -/
def GetRequestBuilder.with_sort_key (b : GetRequestBuilder) (sk : Bytes) : GetRequestBuilder :=
  { b with sort_key := some sk }

/-- State-passing translation of GetRequestBuilder.build. -/
def GetRequestBuilder.buildSt (b : GetRequestBuilder) :
    GetRequestBuilder × Except Exn GetRequest :=
  let request : GetRequest := { partition_key := b.partition_key, sort_key := none }
  let request :=
    match b.sort_key with
    | some sk => { request with sort_key := some sk }
    | none => request
  (b, .ok request)

/-- GetRequestBuilder.build. -/
def GetRequestBuilder.build (b : GetRequestBuilder) : Except Exn GetRequest :=
  (b.buildSt).2

/-- QueryRequestBuilder state. -/
structure QueryRequestBuilder where
  partition_key : Bytes
  sort_key_condition : Option SortKeyCond
  filter_expression : Option String
  expression_values : List (String × Value)
  index_name : Option String
  limit : Option Int
  exclusive_start_key : Option (List (String × Value))
  scan_forward : Option Bool
deriving DecidableEq

/-- QueryRequestBuilder.__init__(partition_key). -/
def QueryRequestBuilder.init (pk : Bytes) : QueryRequestBuilder :=
  { partition_key := pk, sort_key_condition := none, filter_expression := none,
    expression_values := [], index_name := none, limit := none,
    exclusive_start_key := none, scan_forward := none }

/-- QueryRequestBuilder.with_sort_key_equal: overwrites the single
sort_key_condition field with an equal_to dict. -/
def QueryRequestBuilder.with_sort_key_equal (b : QueryRequestBuilder) (v : Bytes) :
    QueryRequestBuilder :=
  { b with sort_key_condition := some (.equal_to v) }

/-- QueryRequestBuilder.with_sort_key_begins_with. -/
def QueryRequestBuilder.with_sort_key_begins_with (b : QueryRequestBuilder) (v : Bytes) :
    QueryRequestBuilder :=
  { b with sort_key_condition := some (.begins_with v) }

/-- QueryRequestBuilder.with_sort_key_between: stores the lower and
upper bounds exactly as given; the body performs no comparison of the
bounds and contains no raise statement. -/
def QueryRequestBuilder.with_sort_key_between (b : QueryRequestBuilder) (lower upper : Bytes) :
    QueryRequestBuilder :=
  { b with sort_key_condition := some (.between lower upper) }

/-- QueryRequestBuilder.with_limit. -/
def QueryRequestBuilder.with_limit (b : QueryRequestBuilder) (n : Int) : QueryRequestBuilder :=
  { b with limit := some n }

/-- QueryRequestBuilder.with_index. -/
def QueryRequestBuilder.with_index (b : QueryRequestBuilder) (i : String) : QueryRequestBuilder :=
  { b with index_name := some i }

/-- QueryRequestBuilder.with_scan_forward. -/
def QueryRequestBuilder.with_scan_forward (b : QueryRequestBuilder) (f : Bool) : QueryRequestBuilder :=
  { b with scan_forward := some f }

/-- State-passing translation of QueryRequestBuilder.build: returns the
dict of the eight builder fields verbatim; no validation, no raise, no
assignment to self. -/
def QueryRequestBuilder.buildSt (b : QueryRequestBuilder) :
    QueryRequestBuilder × Except Exn QueryRequest :=
  (b, .ok { partition_key := b.partition_key,
            sort_key_condition := b.sort_key_condition,
            filter_expression := b.filter_expression,
            expression_values := b.expression_values,
            index_name := b.index_name,
            limit := b.limit,
            exclusive_start_key := b.exclusive_start_key,
            scan_forward := b.scan_forward })

/-- QueryRequestBuilder.build. -/
def QueryRequestBuilder.build (b : QueryRequestBuilder) : Except Exn QueryRequest :=
  (b.buildSt).2

/-- ScanRequestBuilder state: __init__ sets every field to None. -/
structure ScanRequestBuilder where
  filter_expression : Option String
  expression_values : List (String × Value)
  limit : Option Int
  exclusive_start_key : Option (List (String × Value))
  index_name : Option String
  segment : Option Int
  total_segments : Option Int
deriving DecidableEq

/-- ScanRequestBuilder.__init__(). -/
def ScanRequestBuilder.init : ScanRequestBuilder :=
  { filter_expression := none, expression_values := [], limit := none,
    exclusive_start_key := none, index_name := none, segment := none,
    total_segments := none }

/-- ScanRequestBuilder.with_limit. -/
def ScanRequestBuilder.with_limit (b : ScanRequestBuilder) (n : Int) : ScanRequestBuilder :=
  { b with limit := some n }

/-- ScanRequestBuilder.with_segment: assigns segment and total_segments
together; the body performs no bounds check and contains no raise. -/
def ScanRequestBuilder.with_segment (b : ScanRequestBuilder) (s t : Int) : ScanRequestBuilder :=
  { b with segment := some s, total_segments := some t }

/-- State-passing translation of ScanRequestBuilder.build: returns the
dict of the seven builder fields verbatim; no validation, no raise, no
assignment to self. -/
def ScanRequestBuilder.buildSt (b : ScanRequestBuilder) :
    ScanRequestBuilder × Except Exn ScanRequest :=
  (b, .ok { filter_expression := b.filter_expression,
            expression_values := b.expression_values,
            limit := b.limit,
            exclusive_start_key := b.exclusive_start_key,
            index_name := b.index_name,
            segment := b.segment,
            total_segments := b.total_segments })

/-- ScanRequestBuilder.build. -/
def ScanRequestBuilder.build (b : ScanRequestBuilder) : Except Exn ScanRequest :=
  (b.buildSt).2

/-- One chunk of the streamed scan response: an ordered item sequence
and an error string whose empty value means no error (proto3 string
default; the Python guard tests its truthiness). -/
structure ScanResponse where
  items : List Item
  error : String
deriving DecidableEq

/-- The loop body of Client.scan: iterate the chunks in arrival order;
on a chunk whose error string is non-empty, raise the builtin Exception
with message "Scan error: " followed by the chunk error, consuming no
further chunk and returning no accumulated item; otherwise extend the
accumulator with the chunk items and continue. -/
def scanLoop : List ScanResponse → List Item → Except Exn (List Item)
  | [], acc => .ok acc
  | r :: rest, acc =>
    if r.error ≠ "" then .error { name := "Exception", message := "Scan error: " ++ r.error }
    else scanLoop rest (acc ++ r.items)

/-- Client.scan over a stream of response chunks (the stub stream is
modelled by the finite list of chunks the transport delivers before
end-of-stream). -/
def clientScan (chunks : List ScanResponse) : Except Exn (List Item) :=
  scanLoop chunks []

/-- Modelled from the spec: the gRPC channel held by the client is an
external collaborator; close() releases it and a released channel stays
released (grpc channel close is idempotent). The model records only
whether the channel has been released. -/
structure Channel where
  closed : Bool
deriving DecidableEq

/-- Modelled from the spec: releasing the channel. -/
def Channel.close (_ : Channel) : Channel :=
  { closed := true }

/-- Client state relevant to close(): the channel reference, which is
None-able; the truthiness guard in close() tests it. -/
structure Client where
  channel : Option Channel
deriving DecidableEq

/-- Client.close: if self._channel is truthy, call channel.close();
the client keeps the same channel reference, now released. -/
def Client.close (c : Client) : Client :=
  match c.channel with
  | none => c
  | some ch => { c with channel := some ch.close }

/-- The mutating calls available on a ScanRequestBuilder after
__init__: with_limit and with_segment (build reads but never writes). -/
inductive ScanOp where
  | withLimit (n : Int)
  | withSegment (s t : Int)
deriving DecidableEq

/-- Apply one builder call. -/
def ScanRequestBuilder.applyOp (b : ScanRequestBuilder) : ScanOp → ScanRequestBuilder
  | .withLimit n => b.with_limit n
  | .withSegment s t => b.with_segment s t

/-- Apply a call sequence left to right. -/
def ScanRequestBuilder.applyOps (b : ScanRequestBuilder) (ops : List ScanOp) : ScanRequestBuilder :=
  ops.foldl ScanRequestBuilder.applyOp b

/-- A native Python value convertible to an attribute value in this
binding: str, decimal-text number (the binding API takes numbers as
strings for precision), bool, bytes. -/
inductive Native where
  | str (s : String)
  | num (s : String)
  | boolean (b : Bool)
  | binary (bs : Bytes)
deriving DecidableEq

/-- Modelled from the spec: conversion from the attribute-value variant
back to the native value (the reverse conversion lives outside the
shown client sources); a number stays its exact decimal text. -/
def Value.toNative : Value → Native
  | .string_value s => .str s
  | .number_value s => .num s
  | .bool_value b => .boolean b
  | .binary_value bs => .binary bs

/-- Modelled from the spec: conversion from a native value to the
attribute-value variant, as the with_* mutators perform it. -/
def Native.toValue : Native → Value
  | .str s => .string_value s
  | .num s => .number_value s
  | .boolean b => .bool_value b
  | .binary bs => .binary_value bs

end KsDB

namespace KsDB

/-! ### Helper lemmas shared across the development -/

/-- Looking up a key just assigned finds the assigned value. -/
theorem dlookup_dinsert (k : String) (v : α) (d : List (String × α)) :
    dlookup k (dinsert k v d) = some v := by
  induction d with
  | nil => simp [dinsert, dlookup]
  | cons p rest ih =>
    obtain ⟨k1, w⟩ := p
    by_cases h : k1 = k
    · simp [dinsert, dlookup, h]
    · simp [dinsert, dlookup, h, ih]

/-- Re-assigning the same key keeps only the last value. -/
theorem dinsert_dinsert (k : String) (v1 v2 : α) (d : List (String × α)) :
    dinsert k v2 (dinsert k v1 d) = dinsert k v2 d := by
  induction d with
  | nil => simp [dinsert]
  | cons p rest ih =>
    obtain ⟨k1, w⟩ := p
    by_cases h : k1 = k
    · simp [dinsert, h]
    · simp [dinsert, h, ih]

/-- Closed form of PutRequestBuilder.buildSt: the builder comes back
unchanged and the request carries every builder field verbatim. -/
theorem put_buildSt_eq (b : PutRequestBuilder) :
    b.buildSt = (b, .ok { partition_key := b.partition_key,
                          item := { attributes := b.attributes },
                          sort_key := b.sort_key,
                          condition_expression := b.condition,
                          expression_values := b.expression_values }) := by
  obtain ⟨pk, sk, at1, co, ev⟩ := b
  cases sk <;> cases co <;> by_cases h : ev = [] <;>
    simp [PutRequestBuilder.buildSt, h]

/-- Closed form of GetRequestBuilder.buildSt. -/
theorem get_buildSt_eq (b : GetRequestBuilder) :
    b.buildSt = (b, .ok { partition_key := b.partition_key, sort_key := b.sort_key }) := by
  obtain ⟨pk, sk⟩ := b
  cases sk <;> simp [GetRequestBuilder.buildSt]

/-- Running the scan loop over chunks that all carry the empty error
string accumulates every chunk's items in arrival order. -/
theorem scanLoop_ok (chunks : List ScanResponse) (acc : List Item)
    (h : ∀ r ∈ chunks, r.error = "") :
    scanLoop chunks acc = .ok (acc ++ (chunks.map ScanResponse.items).flatten) := by
  induction chunks generalizing acc with
  | nil => simp [scanLoop]
  | cons r rest ih =>
    have hr : r.error = "" := h r (by simp)
    have hrest : ∀ x ∈ rest, x.error = "" := fun x hx => h x (by simp [hx])
    simp [scanLoop, hr, ih (acc ++ r.items) hrest]

/-- Running the scan loop over clean chunks followed by an erroring
chunk raises at the erroring chunk: the accumulator and every later
chunk are dropped from the result. -/
theorem scanLoop_err (pre post : List ScanResponse) (c : ScanResponse) (acc : List Item)
    (hpre : ∀ r ∈ pre, r.error = "") (hc : c.error ≠ "") :
    scanLoop (pre ++ c :: post) acc =
      .error { name := "Exception", message := "Scan error: " ++ c.error } := by
  induction pre generalizing acc with
  | nil => simp [scanLoop, hc]
  | cons r rest ih =>
    have hr : r.error = "" := hpre r (by simp)
    have hrest : ∀ x ∈ rest, x.error = "" := fun x hx => hpre x (by simp [hx])
    simp [scanLoop, hr]
    exact ih (acc ++ r.items) hrest

end KsDB

namespace KsDB

/-! ### C1: scan fail-fast error propagation -/

/-- C1 counterexample: on chunks carrying itemsA, then an error "E",
Client.scan raises the builtin Exception class (message "Scan error: E"),
not a dedicated StreamError type, so the claim that a StreamError is
raised fails on this input. -/
theorem scan_error_class_cex :
    clientScan [ScanResponse.mk [Item.mk [("a", Value.string_value "x")]] "",
                ScanResponse.mk [] "E"] =
      .error { name := "Exception", message := "Scan error: E" } ∧
    "Exception" ≠ "StreamError" := by
  exact ⟨rfl, by decide⟩

/-- C1 (amended): for every chunk sequence of clean chunks followed by
a chunk with a non-empty error field and then arbitrary further chunks,
Client.scan raises a generic builtin Exception whose message carries
the erroring chunk's error text; the result does not depend on the
chunks after the erroring one, and no accumulated item is returned
(the result is an error carrying no items). -/
theorem scan_fail_fast (pre post : List ScanResponse) (c : ScanResponse)
    (hpre : ∀ r ∈ pre, r.error = "") (hc : c.error ≠ "") :
    clientScan (pre ++ c :: post) =
      .error { name := "Exception", message := "Scan error: " ++ c.error } :=
  scanLoop_err pre post c [] hpre hc

/-- Witness for scan_fail_fast at pre = one clean chunk, c = error
chunk "E", post = one further chunk. -/
theorem scan_fail_fast_witness :
    (∀ r ∈ [ScanResponse.mk [Item.mk []] ""], r.error = "") ∧
    (ScanResponse.mk [] "E").error ≠ "" ∧
    clientScan ([ScanResponse.mk [Item.mk []] ""] ++
        ScanResponse.mk [] "E" :: [ScanResponse.mk [Item.mk []] ""]) =
      .error { name := "Exception",
               message := "Scan error: " ++ (ScanResponse.mk [] "E").error } :=
  ⟨by decide, by decide,
    scan_fail_fast [ScanResponse.mk [Item.mk []] ""] [ScanResponse.mk [Item.mk []] ""]
      (ScanResponse.mk [] "E") (by decide) (by decide)⟩

/-! ### C2: scan aggregation on a clean stream -/

/-- C2: for every chunk sequence all of whose error fields are empty,
Client.scan returns exactly the concatenation of the chunks' item
sequences in arrival order. -/
theorem scan_returns_concatenation (chunks : List ScanResponse)
    (h : ∀ r ∈ chunks, r.error = "") :
    clientScan chunks = .ok (chunks.map ScanResponse.items).flatten := by
  simpa using scanLoop_ok chunks [] h

/-- Witness for scan_returns_concatenation at two concrete chunks:
the result is itemsA ++ itemsB. -/
theorem scan_returns_concatenation_witness :
    (∀ r ∈ [ScanResponse.mk [Item.mk [("a", Value.number_value "1")]] "",
            ScanResponse.mk [Item.mk [], Item.mk [("b", Value.bool_value true)]] ""],
        r.error = "") ∧
    clientScan [ScanResponse.mk [Item.mk [("a", Value.number_value "1")]] "",
                ScanResponse.mk [Item.mk [], Item.mk [("b", Value.bool_value true)]] ""] =
      .ok (([ScanResponse.mk [Item.mk [("a", Value.number_value "1")]] "",
             ScanResponse.mk [Item.mk [], Item.mk [("b", Value.bool_value true)]] ""].map
               ScanResponse.items).flatten) :=
  ⟨by decide,
    scan_returns_concatenation
      [ScanResponse.mk [Item.mk [("a", Value.number_value "1")]] "",
       ScanResponse.mk [Item.mk [], Item.mk [("b", Value.bool_value true)]] ""]
      (by decide)⟩

/-! ### C3: empty partition key at build() -/

/-- C3 counterexample: a PutRequestBuilder and a GetRequestBuilder with
an empty partition key both build successfully (build returns a request
rather than failing with a ValidationError). -/
theorem empty_partition_key_builds_cex :
    isOkE (PutRequestBuilder.init []).build = true ∧
    isOkE (GetRequestBuilder.init []).build = true := by
  decide

/-- C3 (amended): build() performs no partition-key validation: for
every builder whose partition key is empty, build() returns normally a
request whose partition key is the same empty byte string; no
ValidationError class even exists in the binding. -/
theorem empty_partition_key_build_no_validation (b : PutRequestBuilder)
    (g : GetRequestBuilder) (hb : b.partition_key = []) (hg : g.partition_key = []) :
    (∃ r, b.build = .ok r ∧ r.partition_key = []) ∧
    (∃ r, g.build = .ok r ∧ r.partition_key = []) := by
  have hp := put_buildSt_eq b
  have hq := get_buildSt_eq g
  constructor
  · exact ⟨_, by rw [PutRequestBuilder.build, hp], by simpa using hb⟩
  · exact ⟨_, by rw [GetRequestBuilder.build, hq], by simpa using hg⟩

/-- Witness for empty_partition_key_build_no_validation at the freshly
initialized builders with empty partition key. -/
theorem empty_partition_key_build_no_validation_witness :
    (PutRequestBuilder.init []).partition_key = [] ∧
    (GetRequestBuilder.init []).partition_key = [] ∧
    ((∃ r, (PutRequestBuilder.init []).build = .ok r ∧ r.partition_key = []) ∧
     (∃ r, (GetRequestBuilder.init []).build = .ok r ∧ r.partition_key = [])) :=
  ⟨rfl, rfl,
    empty_partition_key_build_no_validation (PutRequestBuilder.init [])
      (GetRequestBuilder.init []) rfl rfl⟩

/-! ### C4: scan segment bounds at build() -/

/-- C4 counterexample: segment=4, total_segments=4 does not fail
build(); the request is produced successfully carrying both values, so
the claimed ValidationError does not occur. -/
theorem segment_four_of_four_builds_cex :
    (ScanRequestBuilder.init.with_segment 4 4).build =
      .ok { filter_expression := none, expression_values := [], limit := none,
            exclusive_start_key := none, index_name := none,
            segment := some 4, total_segments := some 4 } := rfl

/-- C4 (amended): neither with_segment nor build() performs any bounds
check: for every builder and all integers segment, total_segments —
including segment greater than or equal to total_segments and
non-positive total_segments — build() succeeds and the request carries
the given values unchanged. -/
theorem with_segment_build_no_validation (b : ScanRequestBuilder) (s t : Int) :
    (b.with_segment s t).build =
      .ok { filter_expression := b.filter_expression,
            expression_values := b.expression_values,
            limit := b.limit,
            exclusive_start_key := b.exclusive_start_key,
            index_name := b.index_name,
            segment := some s, total_segments := some t } := rfl

/-! ### C5: inverted Between bounds -/

/-- C5 counterexample: with lower = [2] strictly greater than
upper = [1] in byte order, with_sort_key_between stores the inverted
pair unchanged and build() succeeds carrying it: neither the mutator
nor build() rejects, so the claimed deterministic rejection fails. -/
theorem between_inverted_accepted_cex :
    bytesLt [1] [2] = true ∧
    ((QueryRequestBuilder.init [0]).with_sort_key_between [2] [1]).sort_key_condition =
      some (.between [2] [1]) ∧
    ((QueryRequestBuilder.init [0]).with_sort_key_between [2] [1]).build =
      .ok { partition_key := [0], sort_key_condition := some (.between [2] [1]),
            filter_expression := none, expression_values := [], index_name := none,
            limit := none, exclusive_start_key := none, scan_forward := none } := by
  exact ⟨by decide, rfl, rfl⟩

/-- C5 (amended): inverted Between bounds are silently accepted: for
every builder and all bounds — the inverted ones included — the mutator
returns normally storing the pair as given and build() succeeds with
the stored condition; no rejection happens anywhere. -/
theorem between_silently_accepted (b : QueryRequestBuilder) (lower upper : Bytes) :
    ((b.with_sort_key_between lower upper).sort_key_condition =
      some (.between lower upper)) ∧
    (b.with_sort_key_between lower upper).build =
      .ok { partition_key := b.partition_key,
            sort_key_condition := some (.between lower upper),
            filter_expression := b.filter_expression,
            expression_values := b.expression_values,
            index_name := b.index_name, limit := b.limit,
            exclusive_start_key := b.exclusive_start_key,
            scan_forward := b.scan_forward } :=
  ⟨rfl, rfl⟩

end KsDB

namespace KsDB

/-! ### C6: decimal number text preserved -/

/-- C6: a decimal-number text attached via with_number reaches the
built request's item unchanged under its attribute name, and the
conversion between native values and the attribute-value variant is an
exact bijective round trip in both directions; in particular the text
"30" is carried as exactly "30". -/
theorem number_text_preserved (b : PutRequestBuilder) (n s : String) :
    (∃ r, (b.with_number n s).build = .ok r ∧
       dlookup n r.item.attributes = some (.number_value s)) ∧
    (∀ v : Native, v.toValue.toNative = v) ∧
    (∀ v : Value, v.toNative.toValue = v) ∧
    (Native.num "30").toValue = .number_value "30" ∧
    (Value.number_value "30").toNative = .num "30" := by
  refine ⟨?_, ?_, ?_, rfl, rfl⟩
  · have h := put_buildSt_eq (b.with_number n s)
    refine ⟨_, by rw [PutRequestBuilder.build, h], ?_⟩
    simp [PutRequestBuilder.with_number, dlookup_dinsert]
  · intro v; cases v <;> rfl
  · intro v; cases v <;> rfl

/-! ### C7: mutator overwrite semantics -/

/-- C7 counterexample: with_string is one mutator; called twice with
different values (different attribute names) the builder keeps both
entries, so its state differs from the state produced by the second
call alone. -/
theorem same_mutator_accumulates_cex :
    ((PutRequestBuilder.init [1]).with_string "a" "x").with_string "b" "y" ≠
      (PutRequestBuilder.init [1]).with_string "b" "y" := by
  decide

/-- C7 (amended): every single-field mutator is last-wins overwrite;
the three QueryRequestBuilder sort-key mutators all overwrite the one
sort_key_condition field, so they are mutually exclusive and the last
call determines the condition of the built request; the attribute
mutators of PutRequestBuilder are keyed by attribute name and
overwrite only when re-called with the same name. -/
theorem mutators_last_call_wins (q : QueryRequestBuilder) (p : PutRequestBuilder)
    (g : GetRequestBuilder) (sc : ScanRequestBuilder)
    (v1 v2 l1 u1 l2 u2 k1 k2 : Bytes) (n1 n2 s1 t1 s2 t2 : Int)
    (i1 i2 c1 c2 a w1 w2 : String) (f1 f2 : Bool) :
    ((q.with_sort_key_equal v1).with_sort_key_equal v2 = q.with_sort_key_equal v2) ∧
    ((q.with_sort_key_begins_with v1).with_sort_key_begins_with v2 =
      q.with_sort_key_begins_with v2) ∧
    ((q.with_sort_key_between l1 u1).with_sort_key_between l2 u2 =
      q.with_sort_key_between l2 u2) ∧
    ((q.with_limit n1).with_limit n2 = q.with_limit n2) ∧
    ((q.with_index i1).with_index i2 = q.with_index i2) ∧
    ((q.with_scan_forward f1).with_scan_forward f2 = q.with_scan_forward f2) ∧
    ((q.with_sort_key_equal v1).with_sort_key_begins_with v2 =
      q.with_sort_key_begins_with v2) ∧
    ((q.with_sort_key_equal v1).with_sort_key_between l2 u2 =
      q.with_sort_key_between l2 u2) ∧
    ((q.with_sort_key_begins_with v1).with_sort_key_equal v2 =
      q.with_sort_key_equal v2) ∧
    ((q.with_sort_key_begins_with v1).with_sort_key_between l2 u2 =
      q.with_sort_key_between l2 u2) ∧
    ((q.with_sort_key_between l1 u1).with_sort_key_equal v2 =
      q.with_sort_key_equal v2) ∧
    ((q.with_sort_key_between l1 u1).with_sort_key_begins_with v2 =
      q.with_sort_key_begins_with v2) ∧
    (∃ r, ((q.with_sort_key_equal v1).with_sort_key_between l2 u2).build = .ok r ∧
       r.sort_key_condition = some (.between l2 u2)) ∧
    ((p.with_sort_key k1).with_sort_key k2 = p.with_sort_key k2) ∧
    ((p.with_condition c1).with_condition c2 = p.with_condition c2) ∧
    ((p.with_string a w1).with_string a w2 = p.with_string a w2) ∧
    ((p.with_number a w1).with_number a w2 = p.with_number a w2) ∧
    ((p.with_bool a f1).with_bool a f2 = p.with_bool a f2) ∧
    ((p.with_binary a k1).with_binary a k2 = p.with_binary a k2) ∧
    ((g.with_sort_key k1).with_sort_key k2 = g.with_sort_key k2) ∧
    ((sc.with_limit n1).with_limit n2 = sc.with_limit n2) ∧
    ((sc.with_segment s1 t1).with_segment s2 t2 = sc.with_segment s2 t2) := by
  refine ⟨rfl, rfl, rfl, rfl, rfl, rfl, rfl, rfl, rfl, rfl, rfl, rfl,
    ⟨_, rfl, rfl⟩, rfl, rfl, ?_, ?_, ?_, ?_, rfl, rfl, rfl⟩
  · simp [PutRequestBuilder.with_string, dinsert_dinsert]
  · simp [PutRequestBuilder.with_number, dinsert_dinsert]
  · simp [PutRequestBuilder.with_bool, dinsert_dinsert]
  · simp [PutRequestBuilder.with_binary, dinsert_dinsert]

/-! ### C8: build() is pure -/

/-- C8: build() is pure besides (absent) validation: the state-passing
translation returns the builder unchanged for all four builders, a
second build() on the returned builder yields the identical result, and
the result is a normally returned request (no exception, and the
embedding involves no channel, so no network interaction). -/
theorem build_pure_and_frame (p : PutRequestBuilder) (g : GetRequestBuilder)
    (q : QueryRequestBuilder) (sc : ScanRequestBuilder) :
    ((p.buildSt).1 = p ∧ ((p.buildSt).1).buildSt = p.buildSt ∧ isOkE p.build = true) ∧
    ((g.buildSt).1 = g ∧ ((g.buildSt).1).buildSt = g.buildSt ∧ isOkE g.build = true) ∧
    ((q.buildSt).1 = q ∧ ((q.buildSt).1).buildSt = q.buildSt ∧ isOkE q.build = true) ∧
    ((sc.buildSt).1 = sc ∧ ((sc.buildSt).1).buildSt = sc.buildSt ∧ isOkE sc.build = true) := by
  refine ⟨⟨rfl, rfl, ?_⟩, ⟨rfl, rfl, ?_⟩, ⟨rfl, rfl, rfl⟩, ⟨rfl, rfl, rfl⟩⟩
  · rw [PutRequestBuilder.build, put_buildSt_eq p]; rfl
  · rw [GetRequestBuilder.build, get_buildSt_eq g]; rfl

/-! ### C9: close() idempotence -/

/-- C9: Client.close is idempotent: a second and a third call return
normally and leave the client in the same closed state as one call. -/
theorem close_idempotent (c : Client) :
    c.close.close = c.close ∧ c.close.close.close = c.close := by
  rcases c with ⟨_ | ch⟩ <;> exact ⟨rfl, rfl⟩

/-! ### C10: segment fields set together -/

/-- The segment pairing invariant is preserved by every builder call. -/
theorem applyOps_segment_pair (ops : List ScanOp) (b : ScanRequestBuilder)
    (h : b.segment.isSome = b.total_segments.isSome) :
    (b.applyOps ops).segment.isSome = (b.applyOps ops).total_segments.isSome := by
  induction ops generalizing b with
  | nil => exact h
  | cons op rest ih =>
    cases op with
    | withLimit n =>
      exact ih (b.with_limit n)
        (by simpa [ScanRequestBuilder.with_limit] using h)
    | withSegment s t =>
      exact ih (b.with_segment s t)
        (by simp [ScanRequestBuilder.with_segment])

/-- C10: after any sequence of builder calls starting from __init__,
segment and total_segments are both set or both unset (with_segment
assigns them together and nothing else touches them), and the built
request carries exactly the builder's two fields. -/
theorem segment_fields_paired (ops : List ScanOp) :
    ((ScanRequestBuilder.init.applyOps ops).segment.isSome =
      (ScanRequestBuilder.init.applyOps ops).total_segments.isSome) ∧
    (∃ r, (ScanRequestBuilder.init.applyOps ops).build = .ok r ∧
       r.segment = (ScanRequestBuilder.init.applyOps ops).segment ∧
       r.total_segments = (ScanRequestBuilder.init.applyOps ops).total_segments) :=
  ⟨applyOps_segment_pair ops ScanRequestBuilder.init rfl, ⟨_, rfl, rfl, rfl⟩⟩

end KsDB
